import Mathlib

/-!
Verification of the task/environment interaction layer of the `allenact`
robothor navigation code (`rl_robothor/robothor_environment.py`,
`rl_robothor/robothor_tasks.py`, `rl_robothor/object_nav/tasks.py`).

The Python code is embedded shallowly:

* floats become rationals (`ℚ`); `math.sqrt` is a parameter `sqrt : ℚ → ℚ`
  of the embedding, constrained where needed to be nonnegative on
  nonnegative inputs (its exact values never matter for the properties
  below);
* Python exceptions become `Except PyErr`;
* numpy arrays on the image path become explicit nested lists with a
  dimension count, so that slicing with the wrong number of indices can be
  modelled as raising `IndexError`;
* the live simulator (ai2thor controller) is an external collaborator: its
  responses (poses, reachability flags, shortest-path corner lists,
  geodesic distances from the external distance cache) enter the embedded
  functions as explicit arguments.
-/

/-- Python exception kinds that the embedded code can raise. -/
inductive PyErr where
  | valueError
  | typeError
  | attributeError
  | indexError
  | keyError
  | assertionError
  | notImplementedError
deriving DecidableEq, Repr

/-- An `{x, y, z}` position dictionary (floats as `ℚ`). -/
structure Point where
  x : ℚ
  y : ℚ
  z : ℚ
deriving DecidableEq, Repr

/-- The full agent pose returned by `RoboThorEnvironment.agent_state`:
position, rotation (x, y, z) and camera horizon. -/
structure AgentPose where
  x : ℚ
  y : ℚ
  z : ℚ
  rotX : ℚ
  rotY : ℚ
  rotZ : ℚ
  horizon : ℚ
deriving DecidableEq, Repr

/-- Default `gridSize` from `RoboThorEnvironment.config` (0.25). -/
def gridSizeDefault : ℚ := 1/4

/-- Default `rotateStepDegrees` from `RoboThorEnvironment.config` (30.0). -/
def rotateStepDefault : ℚ := 30

/-- Embedding of `np.clip(v, lo, hi)` on integers: `min(max(v, lo), hi)`. -/
def clipZ (v lo hi : ℤ) : ℤ := min (max v lo) hi

/-- Python float modulo `a % 360.0` (result carries the sign of the
divisor): `a - 360 * ⌊a / 360⌋`. -/
def fmod360 (a : ℚ) : ℚ := a - 360 * ⌊a / 360⌋

namespace Env

/-- Per-scene grid record stored in `RoboThorEnvironment.grids`: a mapping
from target type to a dense distance array (modelled as a total function on
integer cells; the source only ever touches in-bounds cells because the
quantized coordinates are clipped to the bounding box), together with the
quantized bounding box `(xmin, xmax, zmin, zmax)` of the reachable points. -/
structure SceneEntry where
  targets : String → Option ((ℤ × ℤ) → ℚ)
  xmin : ℤ
  xmax : ℤ
  zmin : ℤ
  zmax : ℤ

/-- The `grids` attribute of `RoboThorEnvironment`: scene name → grid
record, absent until `initialize_grid` has run for that scene. -/
structure GridTable where
  grids : String → Option SceneEntry

/-- Embeds `RoboThorEnvironment.quantized_agent_state` (robothor_environment.py,
lines 137-155): quantizes the agent position `(x, z)` by dividing by
`gridSize`, rounding and clipping to the scene bounding box, and the
rotation around y as a bucket of width `rotateStepDegrees * rot`.
Python's builtin `round` rounds half to even; it is modelled here with
`round` (half away from zero); the claims never evaluate at half-integer
boundaries.  `//` is Python floor division, modelled with `Int.fdiv`. -/
def quantized_agent_state (gridSize rotStep : ℚ) (e : SceneEntry)
    (pose : AgentPose) (xz rot : ℤ) : ℤ × ℤ × ℤ :=
  let x := clipZ (round (pose.x / gridSize)) e.xmin e.xmax
  let z := clipZ (round (pose.z / gridSize)) e.zmin e.zmax
  let rs := rotStep * rot
  let shifted := pose.rotY + rs / 2
  let normalized := fmod360 shifted
  let r := round (normalized / rs)
  (Int.fdiv (x - e.xmin) xz, Int.fdiv (z - e.zmin) xz, r)

/-- The `(p[0], p[1])` cell used to index the distance grid in
`access_grid` (quantization with the default subsampling 1). -/
def poseCell (gridSize rotStep : ℚ) (e : SceneEntry) (pose : AgentPose) :
    ℤ × ℤ :=
  let p := quantized_agent_state gridSize rotStep e pose 1 1
  (p.1, p.2.1)

/-- Inner sum of `RoboThorEnvironment.path_corners_to_dist` (lines
129-135): cumulative Euclidean (x, z) length along consecutive corners.
`math.sqrt` is the parameter `sqrt`. -/
def segSum (sqrt : ℚ → ℚ) : Point → List Point → ℚ
  | _, [] => 0
  | prev, c :: cs =>
      sqrt ((c.x - prev.x) ^ 2 + (c.z - prev.z) ^ 2) + segSum sqrt c cs

/-- Embeds `RoboThorEnvironment.path_corners_to_dist` (lines 124-135): distance
covered by a corner path; the empty path yields `float("inf")`, modelled
as `none`. -/
def path_corners_to_dist (sqrt : ℚ → ℚ) : List Point → Option ℚ
  | [] => none
  | c :: cs => some (segSum sqrt c cs)

/-- Embeds `RoboThorEnvironment.access_grid` (lines 68-89).  The corner list that
`self.path_corners(target)` would return at this instant is the explicit
argument `corners` (the simulator is external).  Returns the distance, the
updated grid table, and whether a shortest-path query was issued.  Reading
`self.grids[self.scene_name]` for an uninitialized scene raises
`KeyError`. -/
def access_grid (sqrt : ℚ → ℚ) (gridSize rotStep : ℚ) (gt : GridTable)
    (scene target : String) (pose : AgentPose) (corners : List Point) :
    Except PyErr (ℚ × GridTable × Bool) :=
  match gt.grids scene with
  | none => .error .keyError
  | some e =>
      let tm :=
        match e.targets target with
        | none => fun t => if t = target then some (fun _ => -2) else e.targets t
        | some _ => e.targets
      let g : (ℤ × ℤ) → ℚ :=
        match tm target with
        | some g => g
        | none => fun _ => -2
      let c := poseCell gridSize rotStep e pose
      if g c < -(3/2 : ℚ) then
        let dist :=
          match path_corners_to_dist sqrt corners with
          | none => -1
          | some d => d
        let gNew := fun c' => if c' = c then dist else g c'
        let tmNew := fun t => if t = target then some gNew else tm t
        let eNew := { e with targets := tmNew }
        .ok (dist, ⟨fun s => if s = scene then some eNew else gt.grids s⟩, true)
      else
        let eNew := { e with targets := tm }
        .ok (g c, ⟨fun s => if s = scene then some eNew else gt.grids s⟩, false)

/-- Value stored in the grid table for `(scene, target, cell)`, when both
the scene entry and the target grid exist. -/
def cellValue (gt : GridTable) (scene target : String) (c : ℤ × ℤ) :
    Option ℚ :=
  match gt.grids scene with
  | none => none
  | some e =>
      match e.targets target with
      | none => none
      | some g => some (g c)

/-- Well-formedness of the grid cache: every stored cell is either the
`-2` "unknown" sentinel, or a computed value, which is `-1` (unreachable)
or a nonnegative path length. -/
def WF (gt : GridTable) : Prop :=
  ∀ scene e, gt.grids scene = some e →
    ∀ target g, e.targets target = some g →
      ∀ c, g c = -2 ∨ -1 ≤ g c

/-- Action `TeleportFull` with a full recorded pose dictionary restores exactly
that pose on the simulator. -/
def teleportFull (_ : AgentPose) (pose : AgentPose) : AgentPose := pose

/-- Embeds `RoboThorEnvironment.path_corners` (lines 105-122).  The external
shortest-path query `metrics.get_shortest_path_to_object_type` is the
parameter `query`; it may move the agent (it teleports internally) and may
raise.  The source catches `ValueError` (no path) and returns `[]`; any
other exception propagates; in all cases the `finally` block teleports the
agent back to the recorded pose. -/
def path_corners (query : AgentPose → Except PyErr (List Point) × AgentPose)
    (s : AgentPose) : Except PyErr (List Point) × AgentPose :=
  let pose := s
  let res := query s
  let path : Except PyErr (List Point) :=
    match res.1 with
    | .ok p => .ok p
    | .error .valueError => .ok []
    | .error e => .error e
  (path, teleportFull res.2 pose)

/-- Total Euclidean (x, z) length of a corner path, `0` for paths with at
most one corner (the finite version of `path_corners_to_dist`). -/
def pathLen (sqrt : ℚ → ℚ) : List Point → ℚ
  | [] => 0
  | c :: cs => segSum sqrt c cs

/-- Names of every method, property and data attribute defined on
`RoboThorEnvironment` (robothor_environment.py lines 31-310); this list is
exhaustive for that class. -/
def methodNames : List String :=
  ["config", "controller", "known_good_location", "grids",
   "initialize_grid_dimensions", "access_grid", "initialize_grid",
   "object_reachable", "path_corners", "path_corners_to_dist",
   "quantized_agent_state", "dist_to_object", "agent_state", "reset",
   "randomize_agent_location", "random_reachable_state",
   "currently_reachable_points", "scene_name", "current_frame",
   "current_depth", "last_event", "last_action", "last_action_success",
   "last_action_return", "step", "stop", "all_objects",
   "all_objects_with_properties", "visible_objects"]

/-- The attribute name `PointNavTask.dist_to_target` looks up on the
environment (robothor_tasks.py line 194). -/
def distToPointName : String := "dist_to_point"

end Env

/-- Modelled from the spec: the action name constants come from
`rl_robothor.robothor_constants`, which is not under src/; the spec only
requires them to be distinct action identifiers. -/
def MOVE_AHEAD : String := "MoveAhead"

/-- Modelled from the spec: see `MOVE_AHEAD`. -/
def MOVE_BACK : String := "MoveBack"

/-- Modelled from the spec: see `MOVE_AHEAD`. -/
def ROTATE_LEFT : String := "RotateLeft"

/-- Modelled from the spec: see `MOVE_AHEAD`. -/
def ROTATE_RIGHT : String := "RotateRight"

/-- Modelled from the spec: see `MOVE_AHEAD`. -/
def LOOK_UP : String := "LookUp"

/-- Modelled from the spec: see `MOVE_AHEAD`. -/
def LOOK_DOWN : String := "LookDown"

/-- Modelled from the spec: see `MOVE_AHEAD`. -/
def END : String := "End"

/-- Does the last element of the list differ from the one before it
(`self.path[-1] != self.path[-2]`)?  `false` when fewer than two
elements. -/
def lastTwoDiffer (l : List Point) : Bool :=
  match l.reverse with
  | a :: b :: _ => decide (a ≠ b)
  | _ => false

/-- Reward configuration dictionary shared by `PointNavTask` and the
robothor `ObjectNavTask` (keys read in robothor_tasks.py). -/
structure RewardConfig where
  step_penalty : ℚ
  goal_success_reward : ℚ
  failed_stop_reward : ℚ
  shaping_weight : ℚ
deriving DecidableEq, Repr

/-- Modelled from the spec: `compute_single_spl` is imported from the
external `ai2thor.util.metrics` package (not part of this repository).
The spec describes its semantics as the sum of consecutive Euclidean
distances along the realized path compared to the optimal corner path,
with SPL `optimal / max(optimal, actual)` if successful else 0. -/
def compute_single_spl (sqrt : ℚ → ℚ) (path optimalCorners : List Point)
    (success : Bool) : ℚ :=
  if success then
    let li := Env.pathLen sqrt optimalCorners
    let pl := Env.pathLen sqrt path
    li / max pl li
  else 0

/-- A metrics mapping returned at episode end (`dist_to_target` is the raw
cache lookup and may be `None` for the robothor ObjectNav task). -/
structure MetricsData where
  success : Option Bool
  ep_length : ℕ
  total_reward : ℚ
  dist_to_target : Option ℚ
  spl : ℚ
deriving DecidableEq, Repr

/-- Result of a `metrics()` call: the empty dict `{}` or a populated
mapping. -/
inductive MetricsOut where
  | empty
  | data (m : MetricsData)
deriving DecidableEq, Repr

namespace PointNav

/-- Mutable per-episode state of `PointNavTask` (robothor_tasks.py lines
40-74 plus the step counter of the base `Task`). -/
structure State where
  took_end_action : Bool
  success : Option Bool
  last_action_success : Option Bool
  last_geodesic_distance : ℚ
  optimal_distance : ℚ
  rewards : List ℚ
  path : List Point
  num_moves_made : ℕ
  steps_taken : ℕ
  max_steps : ℕ
deriving DecidableEq, Repr

/-- The `PointNavTask.__init__` state after construction: `d0` is the initial
geodesic distance obtained from the distance cache or
`env.dist_to_object`. -/
def init (maxSteps : ℕ) (d0 : ℚ) : State :=
  { took_end_action := false
    success := some false
    last_action_success := none
    last_geodesic_distance := d0
    optimal_distance := d0
    rewards := []
    path := []
    num_moves_made := 0
    steps_taken := 0
    max_steps := maxSteps }

/-- Modelled from the spec: `rl_base.task.Task.is_done` is not under
src/.  Per the spec, an episode is terminal when the `END` action was
taken or the step budget is exhausted. -/
def is_done (st : State) : Bool :=
  st.took_end_action || st.max_steps ≤ st.steps_taken

/-- Embeds `PointNavTask.shaping` (robothor_tasks.py lines 140-161): `geoDist` is
the geodesic distance the cache or environment reports for the current
state.  With `shaping_weight == 0` the query is skipped entirely and the
stored distance is not updated. -/
def shaping (cfg : RewardConfig) (geoDist : ℚ) (st : State) : ℚ × State :=
  if cfg.shaping_weight = 0 then (0, st)
  else
    let geodesic_distance := if geoDist = -1 then st.last_geodesic_distance else geoDist
    let rew : ℚ :=
      if st.last_geodesic_distance > -(1/2 : ℚ) ∧ geodesic_distance > -(1/2 : ℚ) then
        st.last_geodesic_distance - geodesic_distance
      else 0
    (rew * cfg.shaping_weight, { st with last_geodesic_distance := geodesic_distance })

/-- Embeds `PointNavTask.judge` (lines 163-178): per-step reward; the terminal
bonus is added only when `_success` is not `None`; the reward is appended
to `_rewards` and returned. -/
def judge (cfg : RewardConfig) (geoDist : ℚ) (st : State) : ℚ × State :=
  let sh := shaping cfg geoDist st
  let st1 := sh.2
  let reward := cfg.step_penalty + sh.1 +
    (if st1.took_end_action then
      match st1.success with
      | none => 0
      | some true => cfg.goal_success_reward
      | some false => cfg.failed_stop_reward
     else 0)
  (reward, { st1 with rewards := st1.rewards ++ [reward] })

/-- External data consumed by one `_step` call: the agent position after
the simulator step, the simulator success flag, the outcome of
`_is_goal_in_range` when the action is `END`, and the geodesic distance
used by `shaping`. -/
structure StepInput where
  pose : Point
  actionSuccess : Bool
  endSuccess : Option Bool
  dist : ℚ
deriving DecidableEq, Repr

/-- Embeds `PointNavTask._step` (lines 90-110). -/
def stepAct (cfg : RewardConfig) (action : String) (i : StepInput)
    (st : State) : ℚ × State :=
  let st1 :=
    if action = END then
      { st with took_end_action := true, success := i.endSuccess,
                last_action_success := i.endSuccess }
    else
      { st with last_action_success := some i.actionSuccess,
                path := st.path ++ [i.pose] }
  let st2 :=
    if 1 < st1.path.length && lastTwoDiffer st1.path then
      { st1 with num_moves_made := st1.num_moves_made + 1 }
    else st1
  judge cfg i.dist st2

/-- Modelled from the spec: the `rl_base.task.Task.step` wrapper is not
under src/; per the spec it advances the step counter and delegates to
`_step`. -/
def step (cfg : RewardConfig) (action : String) (i : StepInput)
    (st : State) : ℚ × State :=
  stepAct cfg action i { st with steps_taken := st.steps_taken + 1 }

/-- Runs an episode: a sequence of `(action, step input)` pairs, returning
the list of per-step rewards (the `judge()` outputs) and the final
state. -/
def run (cfg : RewardConfig) : List (String × StepInput) → State → List ℚ × State
  | [], st => ([], st)
  | (a, i) :: rest, st =>
      let r := step cfg a i st
      let rs := run cfg rest r.2
      (r.1 :: rs.1, rs.2)

/-- Embeds `PointNavTask.spl` (lines 180-191): `0.0` unless `_success` is truthy;
with a distance cache the realized length is `num_moves_made * gridSize`,
otherwise `compute_single_spl` on the realized and optimal corner
paths. -/
def spl (distance_cache : Bool) (sqrt : ℚ → ℚ) (gridSize : ℚ)
    (episode_optimal_corners : List Point) (st : State) : ℚ :=
  if st.success = some true then
    if distance_cache then
      let li := st.optimal_distance
      let pl := (st.num_moves_made : ℚ) * gridSize
      li / max pl li
    else compute_single_spl sqrt st.path episode_optimal_corners true
  else 0

/-- Embeds `PointNavTask.dist_to_target` (lines 193-195): the source reads
`self.env.dist_to_point(...)`, but `RoboThorEnvironment` defines no
`dist_to_point` (see `Env.methodNames`), so the attribute lookup raises
`AttributeError`; `res` is the distance the missing method would have
returned. -/
def dist_to_target (res : ℚ) : Except PyErr (Option ℚ) :=
  if Env.methodNames.contains Env.distToPointName then
    .ok (if res > -(1/2 : ℚ) then some res else none)
  else .error .attributeError

/-- Embeds `PointNavTask._is_goal_in_range` (lines 119-138) applied to the
distance obtained from the cache (`f64 | None`) or from
`dist_to_target`.  The chained comparison `-0.5 < dist <= 0.2` raises
`TypeError` when `dist` is `None` (float-`None` comparison in Python 3);
the final branch logs a warning and returns `None`. -/
def is_goal_in_range (dist : Except PyErr (Option ℚ)) :
    Except PyErr (Option Bool) :=
  match dist with
  | .error e => .error e
  | .ok none => .error .typeError
  | .ok (some d) =>
      if -(1/2 : ℚ) < d ∧ d ≤ 1/5 then .ok (some true)
      else if d > 1/5 then .ok (some false)
      else .ok none

/-- Embeds `PointNavTask.metrics` (lines 197-229).  `cacheDist` is the value
`get_distance` returns when a distance cache is configured.  Returns the
metrics outcome and the post-call state (`_rewards` is cleared on every
terminal call). -/
def metrics (distance_cache : Bool) (cacheDist : Option ℚ) (sqrt : ℚ → ℚ)
    (gridSize : ℚ) (episode_optimal_corners : List Point) (st : State) :
    Except PyErr MetricsOut × State :=
  if ¬ is_done st then (.ok .empty, st)
  else
    let total_reward := st.rewards.sum
    let st1 := { st with rewards := [] }
    if st.success = none then (.ok .empty, st1)
    else
      if distance_cache then
        match cacheDist with
        | none => (.ok .empty, st1)
        | some d =>
            let s := spl distance_cache sqrt gridSize episode_optimal_corners st1
            (.ok (.data
              { success := st.success
                ep_length := st.steps_taken
                total_reward := total_reward
                dist_to_target := some d
                spl := s }), st1)
      else (.error .notImplementedError, st1)

end PointNav

/-- Is `sub` a contiguous substring of the character list? -/
def substrAux (sub : List Char) : List Char → Bool
  | [] => sub.isEmpty
  | c :: cs => sub.isPrefixOf (c :: cs) || substrAux sub cs

/-- Python `sub in s` on strings: contiguous substring test. -/
def strContains (s sub : String) : Bool := substrAux sub.data s.data

/-- A numpy array restricted to the shapes the observation/render path
distinguishes: 2-dimensional or 3-dimensional, as nested lists. -/
inductive PyArr where
  | a2 (rows : List (List ℚ))
  | a3 (rows : List (List (List ℚ)))
deriving DecidableEq, Repr

/-- Number of axes, `len(a.shape)`. -/
def PyArr.ndim : PyArr → ℕ
  | .a2 _ => 2
  | .a3 _ => 3

/-- numpy slice `a[:, ::-1, :]`: reverses axis 1 of a 3-dim array; on a
2-dim array numpy raises `IndexError` (too many indices for array). -/
def sliceRev1Three : PyArr → Except PyErr PyArr
  | .a3 rows => .ok (.a3 (rows.map List.reverse))
  | .a2 _ => .error .indexError

/-- A value in the observation dict: an ndarray or something else
(`isinstance(obs[o], np.ndarray)` fails on the latter). -/
inductive PyVal where
  | arr (a : PyArr)
  | nonArray (tag : ℕ)
deriving DecidableEq, Repr

def rgbStr : String := "rgb"

def depthStr : String := "depth"

/-- The key test `("rgb" in o or "depth" in o)` of
`ObjectNavTask.get_observations` (robothor_tasks.py line 390). -/
def imageKey (k : String) : Bool := strContains k rgbStr || strContains k depthStr

/-- Per-entry update performed by the mirroring loop of
`ObjectNavTask.get_observations` (lines 389-394): ndarray values under an
image key are flipped along axis 1 when 3-dim (`[:, ::-1, :]`) or 2-dim
(`[:, ::-1]`); anything else is left unchanged. -/
def mirrorVal (k : String) (v : PyVal) : PyVal :=
  if imageKey k then
    match v with
    | .arr (.a3 rows) => .arr (.a3 (rows.map List.reverse))
    | .arr (.a2 rows) => .arr (.a2 (rows.map List.reverse))
    | .nonArray t => .nonArray t
  else v

/-- Embeds `ObjectNavTask.get_observations` (lines 386-395): the sensor suite
output `obs` is returned unchanged unless `self.mirror` is set, in which
case every entry is post-processed by the mirroring loop. -/
def get_observations (mirror : Bool) (obs : List (String × PyVal)) :
    List (String × PyVal) :=
  if mirror then obs.map (fun kv => (kv.1, mirrorVal kv.1 kv.2)) else obs

/-- The simulator frames backing `render`. -/
structure Frames where
  frame : PyArr
  depth : PyArr
deriving DecidableEq, Repr

def rgbMode : String := "rgb"

def depthMode : String := "depth"

/-- Embeds `ObjectNavTask.render` (robothor_tasks.py lines 321-329): asserts the
mode, picks the rgb or depth frame, and under `mirror` applies
`frame[:, ::-1, :]`. -/
def renderON (mirror : Bool) (mode : String) (fr : Frames) :
    Except PyErr PyArr :=
  if mode = rgbMode then
    if mirror then sliceRev1Three fr.frame else .ok fr.frame
  else if mode = depthMode then
    if mirror then sliceRev1Three fr.depth else .ok fr.depth
  else .error .assertionError

/-- The action-mirroring prologue of `ObjectNavTask._step` (robothor_tasks.py
lines 293-297): with `mirror` set, `ROTATE_RIGHT` and `ROTATE_LEFT` are
swapped; all other actions pass through. -/
def mirrorActionStr (mirror : Bool) (a : String) : String :=
  if mirror then
    if a = ROTATE_RIGHT then ROTATE_LEFT
    else if a = ROTATE_LEFT then ROTATE_RIGHT
    else a
  else a

namespace ObjectNav

/-- Mutable per-episode state of the robothor `ObjectNavTask`
(robothor_tasks.py lines 248-274 plus the step counter of the base
`Task`). -/
structure State where
  took_end_action : Bool
  success : Option Bool
  last_action_success : Option Bool
  last_geodesic_distance : ℚ
  optimal_distance : ℚ
  mirror : Bool
  rewards : List ℚ
  path : List Point
  followed_path : List AgentPose
  taken_actions : List String
  num_moves_made : ℕ
  steps_taken : ℕ
  max_steps : ℕ
deriving DecidableEq, Repr

/-- The `ObjectNavTask.__init__` state: `d0` is the initial geodesic distance
from the cache or `env.dist_to_object`, `p0` the initial agent pose. -/
def init (maxSteps : ℕ) (mirror : Bool) (d0 : ℚ) (p0 : AgentPose) : State :=
  { took_end_action := false
    success := some false
    last_action_success := none
    last_geodesic_distance := d0
    optimal_distance := d0
    mirror := mirror
    rewards := []
    path := []
    followed_path := [p0]
    taken_actions := []
    num_moves_made := 0
    steps_taken := 0
    max_steps := maxSteps }

/-- Modelled from the spec: `rl_base.task.Task.is_done`, as for
`PointNav.is_done`. -/
def is_done (st : State) : Bool :=
  st.took_end_action || st.max_steps ≤ st.steps_taken

/-- Embeds `ObjectNavTask.shaping` (robothor_tasks.py lines 337-355); unlike the
PointNav version there is no `-1` replacement step. -/
def shaping (cfg : RewardConfig) (geoDist : ℚ) (st : State) : ℚ × State :=
  if cfg.shaping_weight = 0 then (0, st)
  else
    let rew : ℚ :=
      if st.last_geodesic_distance > -(1/2 : ℚ) ∧ geoDist > -(1/2 : ℚ) then
        st.last_geodesic_distance - geoDist
      else 0
    (rew * cfg.shaping_weight, { st with last_geodesic_distance := geoDist })

/-- Embeds `ObjectNavTask.judge` (lines 357-371): the terminal bonus tests
`if self._success` (truthiness: `None` and `False` both select
`failed_stop_reward`); the reward is appended to `_rewards` and
returned. -/
def judge (cfg : RewardConfig) (geoDist : ℚ) (st : State) : ℚ × State :=
  let sh := shaping cfg geoDist st
  let st1 := sh.2
  let reward := cfg.step_penalty + sh.1 +
    (if st1.took_end_action then
      (if st1.success = some true then cfg.goal_success_reward
       else cfg.failed_stop_reward)
     else 0)
  (reward, { st1 with rewards := st1.rewards ++ [reward] })

/-- External data consumed by one `_step`: position and full pose after
the simulator step, the simulator success flag, the visibility outcome of
`_is_goal_in_range` at `END`, and the geodesic distance for `shaping`. -/
structure StepInput where
  pose : Point
  fullPose : AgentPose
  actionSuccess : Bool
  endVisible : Bool
  dist : ℚ
deriving DecidableEq, Repr

/-- Embeds `ObjectNavTask._step` (robothor_tasks.py lines 290-319): mirrors the
action, records it in `taken_actions`, handles `END` via the visibility
predicate, otherwise steps the simulator and extends `path` and
`followed_path`, updates the move count, and judges. -/
def stepAct (cfg : RewardConfig) (action : String) (i : StepInput)
    (st : State) : ℚ × State :=
  let action_str := mirrorActionStr st.mirror action
  let st0 := { st with taken_actions := st.taken_actions ++ [action_str] }
  let st1 :=
    if action_str = END then
      { st0 with took_end_action := true, success := some i.endVisible,
                 last_action_success := some i.endVisible }
    else
      { st0 with last_action_success := some i.actionSuccess,
                 path := st0.path ++ [i.pose],
                 followed_path := st0.followed_path ++ [i.fullPose] }
  let st2 :=
    if 1 < st1.path.length && lastTwoDiffer st1.path then
      { st1 with num_moves_made := st1.num_moves_made + 1 }
    else st1
  judge cfg i.dist st2

/-- Modelled from the spec: the `rl_base.task.Task.step` wrapper, as for
`PointNav.step`. -/
def step (cfg : RewardConfig) (action : String) (i : StepInput)
    (st : State) : ℚ × State :=
  stepAct cfg action i { st with steps_taken := st.steps_taken + 1 }

/-- Runs an episode, returning the per-step `judge()` outputs and the
final state. -/
def run (cfg : RewardConfig) : List (String × StepInput) → State → List ℚ × State
  | [], st => ([], st)
  | (a, i) :: rest, st =>
      let r := step cfg a i st
      let rs := run cfg rest r.2
      (r.1 :: rs.1, rs.2)

/-- Embeds `ObjectNavTask.spl` (lines 373-384), identical in shape to the
PointNav version. -/
def spl (distance_cache : Bool) (sqrt : ℚ → ℚ) (gridSize : ℚ)
    (episode_optimal_corners : List Point) (st : State) : ℚ :=
  if st.success = some true then
    if distance_cache then
      let li := st.optimal_distance
      let pl := (st.num_moves_made : ℚ) * gridSize
      li / max pl li
    else compute_single_spl sqrt st.path episode_optimal_corners true
  else 0

/-- Embeds `ObjectNavTask.metrics` (robothor_tasks.py lines 397-418).
`cacheDist = none` models a task without a configured distance cache: the
source raises `NotImplementedError` before anything else, including before
the `is_done` check.  With a cache, `cacheDist = some d` is the raw
`get_distance_to_object` result (`f64 | None`), stored in the mapping
unguarded. -/
def metrics (cacheDist : Option (Option ℚ)) (sqrt : ℚ → ℚ) (gridSize : ℚ)
    (episode_optimal_corners : List Point) (st : State) :
    Except PyErr MetricsOut × State :=
  match cacheDist with
  | none => (.error .notImplementedError, st)
  | some d =>
      if ¬ is_done st then (.ok .empty, st)
      else
        (.ok (.data
          { success := st.success
            ep_length := st.steps_taken
            total_reward := st.rewards.sum
            dist_to_target := d
            spl := spl true sqrt gridSize episode_optimal_corners st }),
         { st with rewards := [] })

end ObjectNav

namespace ObjectNavExp

/-- Reward configuration of the exploration-shaped ObjectNav variant
(rl_robothor/object_nav/tasks.py): the shared keys plus
`exploration_shaping_weight` and `unsuccessful_action_penalty`. -/
structure RewardConfig where
  step_penalty : ℚ
  goal_success_reward : ℚ
  failed_stop_reward : ℚ
  shaping_weight : ℚ
  exploration_shaping_weight : ℚ
  unsuccessful_action_penalty : ℚ
deriving DecidableEq, Repr

/-- Mutable state of the exploration-shaped `ObjectNavTask`
(object_nav/tasks.py lines 41-47): `cur_dist`, the visited set of
coarsely quantized poses, plus the base-class bookkeeping.  The `rewards`
list is the base-class accumulation of per-step rewards (see `step`). -/
structure State where
  took_end_action : Bool
  success : Option Bool
  last_action_success : Option Bool
  cur_dist : ℚ
  visited : Finset (ℤ × ℤ × ℤ)
  rewards : List ℚ
  steps_taken : ℕ
  max_steps : ℕ
deriving DecidableEq

/-- The `__init__` state: `d0` is the initial `dist_to_object` value and
`cell0` the initial coarse grid cell of the agent (the source calls
`env.agent_to_grid(xz_subsampling=4, rot_subsampling=3)`;
`RoboThorEnvironment` in src/ names that quantization
`quantized_agent_state`). -/
def init (maxSteps : ℕ) (d0 : ℚ) (cell0 : ℤ × ℤ × ℤ) : State :=
  { took_end_action := false
    success := some false
    last_action_success := none
    cur_dist := d0
    visited := {cell0}
    rewards := []
    steps_taken := 0
    max_steps := maxSteps }

/-- Modelled from the spec: `rl_base.task.Task.is_done`, as for
`PointNav.is_done`. -/
def is_done (st : State) : Bool :=
  st.took_end_action || st.max_steps ≤ st.steps_taken

/-- Embeds `ObjectNavTask.shaping` of the exploration variant
(object_nav/tasks.py lines 49-70): distance shaping plus an exploration
bonus for each newly visited coarse cell. -/
def shaping (cfg : RewardConfig) (new_dist : ℚ) (cell : ℤ × ℤ × ℤ)
    (st : State) : ℚ × State :=
  if cfg.shaping_weight = 0 then (0, st)
  else
    let rew1 : ℚ :=
      if st.cur_dist > -(1/2 : ℚ) ∧ new_dist > -(1/2 : ℚ) then
        st.cur_dist - new_dist
      else 0
    let old_visited := st.visited.card
    let visited1 := insert cell st.visited
    let rew := rew1 +
      cfg.exploration_shaping_weight * ((visited1.card : ℚ) - (old_visited : ℚ))
    (rew * cfg.shaping_weight,
     { st with cur_dist := new_dist, visited := visited1 })

/-- Embeds `ObjectNavTask.judge` of the exploration variant (lines 72-88): adds
`unsuccessful_action_penalty` when the last action failed and the terminal
bonus via truthiness of `_success`; unlike the robothor tasks it does NOT
append to any rewards list. -/
def judge (cfg : RewardConfig) (new_dist : ℚ) (cell : ℤ × ℤ × ℤ)
    (st : State) : ℚ × State :=
  let sh := shaping cfg new_dist cell st
  let st1 := sh.2
  let reward := cfg.step_penalty + sh.1 +
    (if st1.last_action_success = some true then 0
     else cfg.unsuccessful_action_penalty) +
    (if st1.took_end_action then
      (if st1.success = some true then cfg.goal_success_reward
       else cfg.failed_stop_reward)
     else 0)
  (reward, st1)

/-- External data consumed by one `_step` of the exploration variant. -/
structure StepInput where
  actionSuccess : Bool
  endVisible : Bool
  dist : ℚ
  cell : ℤ × ℤ × ℤ
deriving DecidableEq, Repr

/-- Embeds `ObjectNavTask._step` of the exploration variant (object_nav/tasks.py
lines 90-107): no mirroring and no path bookkeeping. -/
def stepAct (cfg : RewardConfig) (action : String) (i : StepInput)
    (st : State) : ℚ × State :=
  let st1 :=
    if action = END then
      { st with took_end_action := true, success := some i.endVisible,
                last_action_success := some i.endVisible }
    else
      { st with last_action_success := some i.actionSuccess }
  judge cfg i.dist i.cell st1

/-- Modelled from the spec: the base classes `rl_base.task.Task` and
`rl_ai2thor.object_nav.tasks.ObjectNavTask` are not under src/.  Per the
spec's data flow, each `step` advances the step counter, emits the
per-step reward computed by `judge`, and the task accumulates it for
`metrics()`. -/
def step (cfg : RewardConfig) (action : String) (i : StepInput)
    (st : State) : ℚ × State :=
  let r := stepAct cfg action i { st with steps_taken := st.steps_taken + 1 }
  (r.1, { r.2 with rewards := r.2.rewards ++ [r.1] })

/-- Runs an episode of the exploration variant. -/
def run (cfg : RewardConfig) : List (String × StepInput) → State → List ℚ × State
  | [], st => ([], st)
  | (a, i) :: rest, st =>
      let r := step cfg a i st
      let rs := run cfg rest r.2
      (r.1 :: rs.1, rs.2)

/-- Modelled from the spec: the inherited `metrics()` of the exploration
variant lives in `rl_ai2thor.object_nav.tasks.ObjectNavTask`, which is not
under src/.  Per the spec it returns `{}` until terminal and otherwise a
mapping whose `total_reward` is the accumulated sum of all per-step
rewards. -/
def metrics (st : State) : MetricsOut :=
  if ¬ is_done st then .empty
  else
    .data
      { success := st.success
        ep_length := st.steps_taken
        total_reward := st.rewards.sum
        dist_to_target := none
        spl := 0 }

end ObjectNavExp

namespace C1W

/-- Concrete scene name for evaluating the grid cache. -/
def sceneW : String := "FloorPlan_Train1_1"

/-- Concrete target type. -/
def targetW : String := "Vase"

/-- The quantized cell the witness pose lands in. -/
def cellW : ℤ × ℤ := (2, 2)

/-- A grid whose witness cell is already filled with distance 3. -/
def gW : (ℤ × ℤ) → ℚ := fun c => if c = cellW then 3 else -2

/-- Scene entry holding the filled grid, with bounding box [-2, 2]². -/
def entryW : Env.SceneEntry :=
  { targets := fun t => if t = targetW then some gW else none
    xmin := -2
    xmax := 2
    zmin := -2
    zmax := 2 }

/-- Grid table holding just the witness scene. -/
def gtW : Env.GridTable := ⟨fun s => if s = sceneW then some entryW else none⟩

/-- Agent pose at the origin, quantizing to `cellW`. -/
def poseW : AgentPose := ⟨0, 0, 0, 0, 0, 0, 0⟩

end C1W

/- ------------------------------------------------------------------ -/
/- Theorems                                                            -/
/- ------------------------------------------------------------------ -/

theorem PointNav.shaping_fields (cfg : RewardConfig) (d : ℚ)
    (st : PointNav.State) :
    (PointNav.shaping cfg d st).2.rewards = st.rewards ∧
    (PointNav.shaping cfg d st).2.path = st.path ∧
    (PointNav.shaping cfg d st).2.num_moves_made = st.num_moves_made ∧
    (PointNav.shaping cfg d st).2.took_end_action = st.took_end_action ∧
    (PointNav.shaping cfg d st).2.success = st.success := by
  unfold PointNav.shaping
  split <;> exact ⟨rfl, rfl, rfl, rfl, rfl⟩

theorem PointNav.judge_rewards (cfg : RewardConfig) (d : ℚ)
    (st : PointNav.State) :
    (PointNav.judge cfg d st).2.rewards
      = st.rewards ++ [(PointNav.judge cfg d st).1] := by
  have h : (PointNav.judge cfg d st).2.rewards
      = (PointNav.shaping cfg d st).2.rewards ++ [(PointNav.judge cfg d st).1] := rfl
  rw [h, (PointNav.shaping_fields cfg d st).1]

theorem PointNav.stepAct_rewards (cfg : RewardConfig) (a : String)
    (i : PointNav.StepInput) (st : PointNav.State) :
    (PointNav.stepAct cfg a i st).2.rewards
      = st.rewards ++ [(PointNav.stepAct cfg a i st).1] := by
  unfold PointNav.stepAct
  split <;> dsimp only <;> split <;> exact PointNav.judge_rewards _ _ _

theorem PointNav.run_rewards (cfg : RewardConfig)
    (inputs : List (String × PointNav.StepInput)) (st : PointNav.State) :
    (PointNav.run cfg inputs st).2.rewards
      = st.rewards ++ (PointNav.run cfg inputs st).1 := by
  induction inputs generalizing st with
  | nil => simp [PointNav.run]
  | cons hd tl ih =>
      obtain ⟨a, i⟩ := hd
      simp only [PointNav.run]
      rw [ih]
      have h := PointNav.stepAct_rewards cfg a i
        { st with steps_taken := st.steps_taken + 1 }
      simp only [PointNav.step]
      rw [h]
      simp

theorem ObjectNav.shaping_rewards (cfg : RewardConfig) (d : ℚ)
    (st : ObjectNav.State) :
    (ObjectNav.shaping cfg d st).2.rewards = st.rewards := by
  unfold ObjectNav.shaping
  split <;> rfl

theorem ObjectNav.judge_rewards_append (cfg : RewardConfig) (d : ℚ)
    (st : ObjectNav.State) :
    (ObjectNav.judge cfg d st).2.rewards
      = st.rewards ++ [(ObjectNav.judge cfg d st).1] := by
  have h : (ObjectNav.judge cfg d st).2.rewards
      = (ObjectNav.shaping cfg d st).2.rewards ++ [(ObjectNav.judge cfg d st).1] := rfl
  rw [h, ObjectNav.shaping_rewards]

theorem ObjectNav.stepAct_rewards_append (cfg : RewardConfig) (a : String)
    (i : ObjectNav.StepInput) (st : ObjectNav.State) :
    (ObjectNav.stepAct cfg a i st).2.rewards
      = st.rewards ++ [(ObjectNav.stepAct cfg a i st).1] := by
  unfold ObjectNav.stepAct
  dsimp only
  split <;> dsimp only <;> split <;> exact ObjectNav.judge_rewards_append _ _ _

theorem ObjectNav.run_rewards_append (cfg : RewardConfig)
    (inputs : List (String × ObjectNav.StepInput)) (st : ObjectNav.State) :
    (ObjectNav.run cfg inputs st).2.rewards
      = st.rewards ++ (ObjectNav.run cfg inputs st).1 := by
  induction inputs generalizing st with
  | nil => simp [ObjectNav.run]
  | cons hd tl ih =>
      obtain ⟨a, i⟩ := hd
      simp only [ObjectNav.run]
      rw [ih]
      have h := ObjectNav.stepAct_rewards_append cfg a i
        { st with steps_taken := st.steps_taken + 1 }
      simp only [ObjectNav.step]
      rw [h]
      simp

theorem ObjectNavExp.step_rewards (cfg : ObjectNavExp.RewardConfig)
    (a : String) (i : ObjectNavExp.StepInput) (st : ObjectNavExp.State) :
    (ObjectNavExp.step cfg a i st).2.rewards
      = (ObjectNavExp.stepAct cfg a i
          { st with steps_taken := st.steps_taken + 1 }).2.rewards
        ++ [(ObjectNavExp.step cfg a i st).1] := rfl

theorem ObjectNavExp.stepAct_rewards_fixed (cfg : ObjectNavExp.RewardConfig)
    (a : String) (i : ObjectNavExp.StepInput) (st : ObjectNavExp.State) :
    (ObjectNavExp.stepAct cfg a i st).2.rewards = st.rewards := by
  unfold ObjectNavExp.stepAct ObjectNavExp.judge ObjectNavExp.shaping
  split <;> dsimp only <;> split <;> rfl

theorem ObjectNavExp.run_rewards_base (cfg : ObjectNavExp.RewardConfig)
    (inputs : List (String × ObjectNavExp.StepInput)) (st : ObjectNavExp.State) :
    (ObjectNavExp.run cfg inputs st).2.rewards
      = st.rewards ++ (ObjectNavExp.run cfg inputs st).1 := by
  induction inputs generalizing st with
  | nil => simp [ObjectNavExp.run]
  | cons hd tl ih =>
      obtain ⟨a, i⟩ := hd
      simp only [ObjectNavExp.run]
      rw [ih, ObjectNavExp.step_rewards, ObjectNavExp.stepAct_rewards_fixed]
      simp

/-- Claim C2: `path_corners` returns an empty corner sequence when the
shortest-path query fails with `ValueError` (no path), and in every case
(success, no-path failure, or any other propagating exception) the agent
pose after the call equals the pose recorded before the query. -/
theorem C2_path_corners_scoped_query
    (query : AgentPose → Except PyErr (List Point) × AgentPose)
    (s : AgentPose) :
    (Env.path_corners query s).2 = s ∧
    ((query s).1 = .error .valueError →
      (Env.path_corners query s).1 = .ok []) := by
  refine ⟨rfl, ?_⟩
  intro h
  simp [Env.path_corners, h]

/-- Witness for C2 at a concrete failing query and pose. -/
theorem C2_path_corners_scoped_query_witness :
    (Env.path_corners (fun p => (.error .valueError, ⟨p.x + 1, p.y, p.z, p.rotX, p.rotY, p.rotZ, p.horizon⟩))
      ⟨1, 0, 2, 0, 90, 0, 30⟩).2 = ⟨1, 0, 2, 0, 90, 0, 30⟩ ∧
    (Env.path_corners (fun p => (.error .valueError, ⟨p.x + 1, p.y, p.z, p.rotX, p.rotY, p.rotZ, p.horizon⟩))
      ⟨1, 0, 2, 0, 90, 0, 30⟩).1 = .ok [] := by
  have h := C2_path_corners_scoped_query
    (fun p => (.error .valueError, ⟨p.x + 1, p.y, p.z, p.rotX, p.rotY, p.rotZ, p.horizon⟩))
    ⟨1, 0, 2, 0, 90, 0, 30⟩
  exact ⟨h.1, h.2 rfl⟩

theorem PointNav.judge_path (cfg : RewardConfig) (d : ℚ)
    (st : PointNav.State) :
    (PointNav.judge cfg d st).2.path = st.path := by
  have h : (PointNav.judge cfg d st).2.path
      = (PointNav.shaping cfg d st).2.path := rfl
  rw [h, (PointNav.shaping_fields cfg d st).2.1]

theorem PointNav.judge_moves (cfg : RewardConfig) (d : ℚ)
    (st : PointNav.State) :
    (PointNav.judge cfg d st).2.num_moves_made = st.num_moves_made := by
  have h : (PointNav.judge cfg d st).2.num_moves_made
      = (PointNav.shaping cfg d st).2.num_moves_made := rfl
  rw [h, (PointNav.shaping_fields cfg d st).2.2.1]

/-- Claim C6 counterexample: a freshly constructed (non-terminal) robothor
`ObjectNavTask` with no distance cache: `metrics()` raises
`NotImplementedError` instead of returning the empty mapping. -/
theorem C6_metrics_before_terminal_counterexample :
    ObjectNav.is_done (ObjectNav.init 10 false 3 ⟨0, 0, 0, 0, 0, 0, 0⟩) = false ∧
    (ObjectNav.metrics none (fun q => q) gridSizeDefault []
        (ObjectNav.init 10 false 3 ⟨0, 0, 0, 0, 0, 0, 0⟩)).1
      = .error .notImplementedError := ⟨rfl, rfl⟩

/-- Claim C6 (amended): in every non-terminal state, `PointNavTask.metrics`
returns `{}`; the robothor `ObjectNavTask.metrics` returns `{}` when a
distance cache is configured, but raises `NotImplementedError` (before the
terminal check) when none is; the exploration variant returns `{}` before
terminal. -/
theorem C6_metrics_before_terminal_amended :
    (∀ (dc : Bool) (cd : Option ℚ) (sqrt : ℚ → ℚ) (gs : ℚ)
        (corners : List Point) (st : PointNav.State),
        PointNav.is_done st = false →
        PointNav.metrics dc cd sqrt gs corners st = (.ok .empty, st)) ∧
    (∀ (d : Option ℚ) (sqrt : ℚ → ℚ) (gs : ℚ) (corners : List Point)
        (st : ObjectNav.State),
        ObjectNav.is_done st = false →
        ObjectNav.metrics (some d) sqrt gs corners st = (.ok .empty, st)) ∧
    (∀ (sqrt : ℚ → ℚ) (gs : ℚ) (corners : List Point) (st : ObjectNav.State),
        ObjectNav.metrics none sqrt gs corners st
          = (.error .notImplementedError, st)) ∧
    (∀ st : ObjectNavExp.State, ObjectNavExp.is_done st = false →
        ObjectNavExp.metrics st = .empty) := by
  refine ⟨?_, ?_, ?_, ?_⟩
  · intro dc cd sqrt gs corners st h
    simp [PointNav.metrics, h]
  · intro d sqrt gs corners st h
    simp [ObjectNav.metrics, h]
  · intro sqrt gs corners st
    rfl
  · intro st h
    simp [ObjectNavExp.metrics, h]

/-- Witness for the amended C6 at concrete non-terminal states. -/
theorem C6_metrics_before_terminal_amended_witness :
    PointNav.metrics true (some 2) (fun q => q) gridSizeDefault []
        (PointNav.init 10 3) = (.ok .empty, PointNav.init 10 3) ∧
    ObjectNav.metrics (some (some 2)) (fun q => q) gridSizeDefault []
        (ObjectNav.init 10 false 3 ⟨0, 0, 0, 0, 0, 0, 0⟩)
      = (.ok .empty, ObjectNav.init 10 false 3 ⟨0, 0, 0, 0, 0, 0, 0⟩) ∧
    ObjectNav.metrics none (fun q => q) gridSizeDefault []
        (ObjectNav.init 10 false 3 ⟨0, 0, 0, 0, 0, 0, 0⟩)
      = (.error .notImplementedError,
         ObjectNav.init 10 false 3 ⟨0, 0, 0, 0, 0, 0, 0⟩) ∧
    ObjectNavExp.metrics (ObjectNavExp.init 10 3 (0, 0, 0)) = .empty := by
  have h := C6_metrics_before_terminal_amended
  exact ⟨h.1 true (some 2) (fun q => q) gridSizeDefault [] (PointNav.init 10 3) rfl,
         h.2.1 (some 2) (fun q => q) gridSizeDefault []
           (ObjectNav.init 10 false 3 ⟨0, 0, 0, 0, 0, 0, 0⟩) rfl,
         h.2.2.1 (fun q => q) gridSizeDefault []
           (ObjectNav.init 10 false 3 ⟨0, 0, 0, 0, 0, 0, 0⟩),
         h.2.2.2 (ObjectNavExp.init 10 3 (0, 0, 0)) rfl⟩

/-- Claim C8: the robothor `ObjectNavTask.metrics` raises
`NotImplementedError` whenever no external distance cache is configured,
for every task state (terminal or not), instead of computing or returning
metric values. -/
theorem C8_objectnav_metrics_requires_cache (sqrt : ℚ → ℚ) (gridSize : ℚ)
    (corners : List Point) (st : ObjectNav.State) :
    ObjectNav.metrics none sqrt gridSize corners st
      = (.error .notImplementedError, st) := rfl

/-- Claim C4: the goal-range test of `PointNavTask`.  For a float distance
`d` the branches match the claim: success for `-0.5 < d ≤ 0.2`, failure
for `d > 0.2`, warning plus `None` for `d ≤ -0.5`; and a `None` success is
propagated through `judge` without adding either terminal bonus.  But the
claim also covers the unknown-distance and no-cache paths, where the code
crashes instead: a `None` distance makes the chained comparison raise
`TypeError`, and the live path raises `AttributeError` because
`RoboThorEnvironment` has no `dist_to_point` method. -/
theorem C4_goal_in_range_eval :
    (∀ d : ℚ, -(1/2 : ℚ) < d → d ≤ 1/5 →
        PointNav.is_goal_in_range (.ok (some d)) = .ok (some true)) ∧
    (∀ d : ℚ, (1/5 : ℚ) < d →
        PointNav.is_goal_in_range (.ok (some d)) = .ok (some false)) ∧
    (∀ d : ℚ, d ≤ -(1/2 : ℚ) →
        PointNav.is_goal_in_range (.ok (some d)) = .ok none) ∧
    (PointNav.is_goal_in_range (.ok none) = .error .typeError) ∧
    (∀ res : ℚ, PointNav.dist_to_target res = .error .attributeError) ∧
    (∀ (cfg : RewardConfig) (g : ℚ) (st : PointNav.State),
        st.took_end_action = true → st.success = none →
        (PointNav.judge cfg g st).1
          = cfg.step_penalty + (PointNav.shaping cfg g st).1) := by
  refine ⟨?_, ?_, ?_, rfl, ?_, ?_⟩
  · intro d h1 h2
    show (if -(1/2 : ℚ) < d ∧ d ≤ 1/5 then (Except.ok (some true) : Except PyErr (Option Bool))
      else if d > 1/5 then Except.ok (some false) else Except.ok none) = Except.ok (some true)
    rw [if_pos ⟨h1, h2⟩]
  · intro d h
    have h1 : ¬ (d ≤ (1/5 : ℚ)) := not_le.mpr h
    show (if -(1/2 : ℚ) < d ∧ d ≤ 1/5 then (Except.ok (some true) : Except PyErr (Option Bool))
      else if d > 1/5 then Except.ok (some false) else Except.ok none) = Except.ok (some false)
    rw [if_neg (fun hc => h1 hc.2), if_pos h]
  · intro d h
    have h1 : ¬ (-(1/2 : ℚ) < d) := not_lt.mpr h
    have h2 : ¬ ((1/5 : ℚ) < d) := not_lt.mpr (le_trans h (by norm_num))
    show (if -(1/2 : ℚ) < d ∧ d ≤ 1/5 then (Except.ok (some true) : Except PyErr (Option Bool))
      else if d > 1/5 then Except.ok (some false) else Except.ok none) = Except.ok none
    rw [if_neg (fun hc => h1 hc.1), if_neg h2]
  · intro res
    have h : ¬ (Env.methodNames.contains Env.distToPointName = true) := by decide
    unfold PointNav.dist_to_target
    rw [if_neg h]
  · intro cfg g st h1 h2
    unfold PointNav.judge
    dsimp only
    rw [(PointNav.shaping_fields cfg g st).2.2.2.1,
        (PointNav.shaping_fields cfg g st).2.2.2.2, h1, h2]
    simp

/-- Witness for C4 at concrete distances and a concrete ambiguous END
state. -/
theorem C4_goal_in_range_eval_witness :
    PointNav.is_goal_in_range (.ok (some 0)) = .ok (some true) ∧
    PointNav.is_goal_in_range (.ok (some 1)) = .ok (some false) ∧
    PointNav.is_goal_in_range (.ok (some (-1))) = .ok none ∧
    PointNav.dist_to_target 7 = .error .attributeError ∧
    (PointNav.judge ⟨-(1/100), 10, 5, 0⟩ 2
        ⟨true, none, none, 3, 3, [], [], 0, 1, 10⟩).1
      = -(1/100) + (PointNav.shaping ⟨-(1/100), 10, 5, 0⟩ 2
        ⟨true, none, none, 3, 3, [], [], 0, 1, 10⟩).1 := by
  have h := C4_goal_in_range_eval
  exact ⟨h.1 0 (by norm_num) (by norm_num), h.2.1 1 (by norm_num),
         h.2.2.1 (-1) (by norm_num), h.2.2.2.2.1 7,
         h.2.2.2.2.2 ⟨-(1/100), 10, 5, 0⟩ 2
           ⟨true, none, none, 3, 3, [], [], 0, 1, 10⟩ rfl rfl⟩

theorem div_max_unit (li pl : ℚ) (h : 0 < li) :
    0 ≤ li / max pl li ∧ li / max pl li ≤ 1 := by
  have hm : 0 < max pl li := lt_of_lt_of_le h (le_max_right pl li)
  constructor
  · exact div_nonneg h.le hm.le
  · rw [div_le_one hm]
    exact le_max_right pl li

/-- Claim C7: `spl()` is `0` whenever the episode success flag is falsy
(`False` or `None`); for successful episodes with
`actual_path_length ≥ optimal_distance > 0` the value lies in `[0, 1]` —
in cache mode (`num_moves_made * gridSize` as realized length) and in
non-cache mode (`compute_single_spl`), for both task classes. -/
theorem C7_spl_bounds :
    (∀ (dc : Bool) (sqrt : ℚ → ℚ) (gs : ℚ) (corners : List Point)
        (st : PointNav.State), st.success ≠ some true →
        PointNav.spl dc sqrt gs corners st = 0) ∧
    (∀ (dc : Bool) (sqrt : ℚ → ℚ) (gs : ℚ) (corners : List Point)
        (st : ObjectNav.State), st.success ≠ some true →
        ObjectNav.spl dc sqrt gs corners st = 0) ∧
    (∀ (sqrt : ℚ → ℚ) (gs : ℚ) (corners : List Point)
        (st : PointNav.State), st.success = some true →
        0 < st.optimal_distance →
        st.optimal_distance ≤ (st.num_moves_made : ℚ) * gs →
        0 ≤ PointNav.spl true sqrt gs corners st ∧
          PointNav.spl true sqrt gs corners st ≤ 1) ∧
    (∀ (sqrt : ℚ → ℚ) (gs : ℚ) (corners : List Point)
        (st : PointNav.State), st.success = some true →
        0 < Env.pathLen sqrt corners →
        Env.pathLen sqrt corners ≤ Env.pathLen sqrt st.path →
        0 ≤ PointNav.spl false sqrt gs corners st ∧
          PointNav.spl false sqrt gs corners st ≤ 1) ∧
    (∀ (sqrt : ℚ → ℚ) (gs : ℚ) (corners : List Point)
        (st : ObjectNav.State), st.success = some true →
        0 < st.optimal_distance →
        st.optimal_distance ≤ (st.num_moves_made : ℚ) * gs →
        0 ≤ ObjectNav.spl true sqrt gs corners st ∧
          ObjectNav.spl true sqrt gs corners st ≤ 1) ∧
    (∀ (sqrt : ℚ → ℚ) (gs : ℚ) (corners : List Point)
        (st : ObjectNav.State), st.success = some true →
        0 < Env.pathLen sqrt corners →
        Env.pathLen sqrt corners ≤ Env.pathLen sqrt st.path →
        0 ≤ ObjectNav.spl false sqrt gs corners st ∧
          ObjectNav.spl false sqrt gs corners st ≤ 1) := by
  refine ⟨?_, ?_, ?_, ?_, ?_, ?_⟩
  · intro dc sqrt gs corners st h
    unfold PointNav.spl
    rw [if_neg h]
  · intro dc sqrt gs corners st h
    unfold ObjectNav.spl
    rw [if_neg h]
  · intro sqrt gs corners st h h1 h2
    unfold PointNav.spl
    rw [if_pos h, if_pos rfl]
    exact div_max_unit _ _ h1
  · intro sqrt gs corners st h h1 h2
    unfold PointNav.spl
    rw [if_pos h, if_neg (by simp)]
    unfold compute_single_spl
    rw [if_pos rfl]
    exact div_max_unit _ _ h1
  · intro sqrt gs corners st h h1 h2
    unfold ObjectNav.spl
    rw [if_pos h, if_pos rfl]
    exact div_max_unit _ _ h1
  · intro sqrt gs corners st h h1 h2
    unfold ObjectNav.spl
    rw [if_pos h, if_neg (by simp)]
    unfold compute_single_spl
    rw [if_pos rfl]
    exact div_max_unit _ _ h1

/-- Witness for C7: concrete unsuccessful and successful episodes in both
cache and non-cache mode for both tasks. -/
theorem C7_spl_bounds_witness :
    PointNav.spl true (fun _ => 1) 1 [] (PointNav.init 10 1) = 0 ∧
    ObjectNav.spl true (fun _ => 1) 1 []
        (ObjectNav.init 10 false 1 ⟨0, 0, 0, 0, 0, 0, 0⟩) = 0 ∧
    (0 ≤ PointNav.spl true (fun _ => 1) 1 []
        { PointNav.init 10 1 with success := some true, num_moves_made := 1 } ∧
      PointNav.spl true (fun _ => 1) 1 []
        { PointNav.init 10 1 with success := some true, num_moves_made := 1 } ≤ 1) ∧
    (0 ≤ PointNav.spl false (fun _ => 1) 1 [⟨0, 0, 0⟩, ⟨1, 0, 0⟩]
        { PointNav.init 10 1 with success := some true, path := [⟨0, 0, 0⟩, ⟨2, 0, 0⟩] } ∧
      PointNav.spl false (fun _ => 1) 1 [⟨0, 0, 0⟩, ⟨1, 0, 0⟩]
        { PointNav.init 10 1 with success := some true, path := [⟨0, 0, 0⟩, ⟨2, 0, 0⟩] } ≤ 1) ∧
    (0 ≤ ObjectNav.spl true (fun _ => 1) 1 []
        { ObjectNav.init 10 false 1 ⟨0, 0, 0, 0, 0, 0, 0⟩ with success := some true, num_moves_made := 1 } ∧
      ObjectNav.spl true (fun _ => 1) 1 []
        { ObjectNav.init 10 false 1 ⟨0, 0, 0, 0, 0, 0, 0⟩ with success := some true, num_moves_made := 1 } ≤ 1) ∧
    (0 ≤ ObjectNav.spl false (fun _ => 1) 1 [⟨0, 0, 0⟩, ⟨1, 0, 0⟩]
        { ObjectNav.init 10 false 1 ⟨0, 0, 0, 0, 0, 0, 0⟩ with success := some true, path := [⟨0, 0, 0⟩, ⟨2, 0, 0⟩] } ∧
      ObjectNav.spl false (fun _ => 1) 1 [⟨0, 0, 0⟩, ⟨1, 0, 0⟩]
        { ObjectNav.init 10 false 1 ⟨0, 0, 0, 0, 0, 0, 0⟩ with success := some true, path := [⟨0, 0, 0⟩, ⟨2, 0, 0⟩] } ≤ 1) := by
  have h := C7_spl_bounds
  refine ⟨h.1 true (fun _ => 1) 1 [] (PointNav.init 10 1) (by decide),
    h.2.1 true (fun _ => 1) 1 []
      (ObjectNav.init 10 false 1 ⟨0, 0, 0, 0, 0, 0, 0⟩) (by decide),
    h.2.2.1 (fun _ => 1) 1 [] _ rfl (by simp [PointNav.init])
      (by simp [PointNav.init]),
    h.2.2.2.1 (fun _ => 1) 1 [⟨0, 0, 0⟩, ⟨1, 0, 0⟩] _ rfl
      (by simp [Env.pathLen, Env.segSum])
      (by simp [Env.pathLen, Env.segSum, PointNav.init]),
    h.2.2.2.2.1 (fun _ => 1) 1 [] _ rfl (by simp [ObjectNav.init])
      (by simp [ObjectNav.init]),
    h.2.2.2.2.2 (fun _ => 1) 1 [⟨0, 0, 0⟩, ⟨1, 0, 0⟩] _ rfl
      (by simp [Env.pathLen, Env.segSum])
      (by simp [Env.pathLen, Env.segSum, ObjectNav.init])⟩

theorem Env.segSum_nonneg (sqrt : ℚ → ℚ) (hsqrt : ∀ q : ℚ, 0 ≤ q → 0 ≤ sqrt q)
    (prev : Point) (cs : List Point) : 0 ≤ Env.segSum sqrt prev cs := by
  induction cs generalizing prev with
  | nil => simp [Env.segSum]
  | cons c cs ih =>
      have h1 : 0 ≤ sqrt ((c.x - prev.x) ^ 2 + (c.z - prev.z) ^ 2) :=
        hsqrt _ (by positivity)
      have h2 := ih c
      unfold Env.segSum
      linarith

theorem Env.dist_of_corners_ge (sqrt : ℚ → ℚ)
    (hsqrt : ∀ q : ℚ, 0 ≤ q → 0 ≤ sqrt q) (corners : List Point) :
    (-1 : ℚ) ≤ (match Env.path_corners_to_dist sqrt corners with
      | none => (-1 : ℚ)
      | some d => d) := by
  cases corners with
  | nil => simp [Env.path_corners_to_dist]
  | cons c cs =>
      have h := Env.segSum_nonneg sqrt hsqrt c cs
      simp only [Env.path_corners_to_dist]
      linarith

theorem Env.access_grid_readback
    (sqrt : ℚ → ℚ) (gridSize rotStep : ℚ) (gt : Env.GridTable)
    (hwf : Env.WF gt)
    (scene target : String) (e : Env.SceneEntry) (g : (ℤ × ℤ) → ℚ)
    (c : ℤ × ℤ)
    (hs : gt.grids scene = some e) (ht : e.targets target = some g)
    (hfill : g c ≠ -2)
    (pose : AgentPose) (corners : List Point)
    (hc : Env.poseCell gridSize rotStep e pose = c) :
    Env.access_grid sqrt gridSize rotStep gt scene target pose corners
      = .ok (g c, gt, false) := by
  obtain ⟨gr⟩ := gt
  simp only [Env.GridTable.grids] at hs
  have hge : (-1 : ℚ) ≤ g c := by
    rcases hwf scene e hs target g ht c with h | h
    · exact absurd h hfill
    · exact h
  have hnot : ¬ (g c < -(3/2 : ℚ)) := by
    intro hlt
    linarith
  unfold Env.access_grid
  simp only [hs, ht, hc]
  rw [if_neg hnot]
  have hfun : (fun s => if s = scene then some { e with targets := e.targets } else gr s) = gr := by
    funext s
    by_cases hss : s = scene
    · rw [if_pos hss, hss, hs]
    · rw [if_neg hss]
  rw [hfun]


theorem Env.access_grid_preserves
    (sqrt : ℚ → ℚ) (hsqrt : ∀ q : ℚ, 0 ≤ q → 0 ≤ sqrt q)
    (gridSize rotStep : ℚ) (gt : Env.GridTable) (hwf : Env.WF gt)
    (scene target : String) (e : Env.SceneEntry) (g : (ℤ × ℤ) → ℚ)
    (c : ℤ × ℤ)
    (hs : gt.grids scene = some e) (ht : e.targets target = some g)
    (hfill : g c ≠ -2)
    (scene2 target2 : String) (pose2 : AgentPose) (corners2 : List Point)
    (v : ℚ) (gt2 : Env.GridTable) (q : Bool)
    (hcall : Env.access_grid sqrt gridSize rotStep gt scene2 target2 pose2 corners2
      = .ok (v, gt2, q)) :
    Env.cellValue gt2 scene target c = some (g c) ∧ Env.WF gt2 := by
  obtain ⟨gr⟩ := gt
  simp only [Env.GridTable.grids] at hs
  have hge : (-1 : ℚ) ≤ g c := by
    rcases hwf scene e hs target g ht c with h | h
    · exact absurd h hfill
    · exact h
  unfold Env.access_grid at hcall
  dsimp only at hcall
  cases hgs : gr scene2 with
  | none =>
      rw [hgs] at hcall
      cases hcall
  | some e2 =>
      rw [hgs] at hcall
      dsimp only at hcall
      cases heq : e2.targets target2 with
      | none =>
          rw [heq] at hcall
          simp only [eq_self_iff_true, if_true] at hcall
          rw [if_pos (by norm_num : (-2 : ℚ) < -(3/2 : ℚ))] at hcall
          cases hcall
          constructor
          · unfold Env.cellValue
            dsimp only
            by_cases hsc : scene = scene2
            · have he2 : e2 = e := by
                rw [hsc] at hs
                rw [hgs] at hs
                exact Option.some_inj.mp hs
              have htt : target ≠ target2 := by
                intro htt
                rw [he2, ← htt, ht] at heq
                cases heq
              simp only [if_pos hsc, if_neg htt, he2, ht]
            · simp only [if_neg hsc, hs, ht]
          · intro scene' e' h' target' g' ht' c'
            dsimp only at h'
            by_cases hsc : scene' = scene2
            · rw [if_pos hsc] at h'
              cases h'
              dsimp only at ht'
              by_cases htt : target' = target2
              · rw [if_pos htt] at ht'
                cases ht'
                dsimp only
                by_cases hcc : c' = Env.poseCell gridSize rotStep e2 pose2
                · rw [if_pos hcc]
                  right
                  exact Env.dist_of_corners_ge sqrt hsqrt corners2
                · rw [if_neg hcc]
                  left
                  rfl
              · rw [if_neg htt, if_neg htt] at ht'
                exact hwf scene2 e2 hgs target' g' ht' c'
            · rw [if_neg hsc] at h'
              exact hwf scene' e' h' target' g' ht' c'
      | some gOrig =>
          rw [heq] at hcall
          dsimp only at hcall
          split at hcall
          · cases hcall
            rename_i hlt
            constructor
            · unfold Env.cellValue
              dsimp only
              by_cases hsc : scene = scene2
              · have he2 : e2 = e := by
                  rw [hsc] at hs
                  rw [hgs] at hs
                  exact Option.some_inj.mp hs
                by_cases htt : target = target2
                · have hgo : gOrig = g := by
                    have heq2 := heq
                    rw [he2, ← htt, ht] at heq2
                    exact (Option.some_inj.mp heq2.symm)
                  have hcc : c ≠ Env.poseCell gridSize rotStep e2 pose2 := by
                    intro hcc
                    rw [heq] at hlt
                    dsimp only at hlt
                    rw [hgo, ← hcc] at hlt
                    linarith
                  simp only [if_pos hsc, if_pos htt, if_neg hcc, heq, hgo]
                · simp only [if_pos hsc, if_neg htt, heq, he2, ht]
              · simp only [if_neg hsc, hs, ht]
            · intro scene' e' h' target' g' ht' c'
              dsimp only at h'
              by_cases hsc : scene' = scene2
              · rw [if_pos hsc] at h'
                cases h'
                dsimp only at ht'
                by_cases htt : target' = target2
                · rw [if_pos htt] at ht'
                  cases ht'
                  dsimp only
                  by_cases hcc : c' = Env.poseCell gridSize rotStep e2 pose2
                  · rw [if_pos hcc]
                    right
                    exact Env.dist_of_corners_ge sqrt hsqrt corners2
                  · rw [if_neg hcc]
                    simp only [heq]
                    exact hwf scene2 e2 hgs target2 gOrig heq c'
                · rw [if_neg htt] at ht'
                  exact hwf scene2 e2 hgs target' g' ht' c'
              · rw [if_neg hsc] at h'
                exact hwf scene' e' h' target' g' ht' c'
          · cases hcall
            constructor
            · unfold Env.cellValue
              dsimp only
              by_cases hsc : scene = scene2
              · have he2 : e2 = e := by
                  rw [hsc] at hs
                  rw [hgs] at hs
                  exact Option.some_inj.mp hs
                simp only [if_pos hsc, heq, he2, ht]
              · simp only [if_neg hsc, hs, ht]
            · intro scene' e' h' target' g' ht' c'
              dsimp only at h'
              by_cases hsc : scene' = scene2
              · rw [if_pos hsc] at h'
                cases h'
                dsimp only at ht'
                exact hwf scene2 e2 hgs target' g' ht' c'
              · rw [if_neg hsc] at h'
                exact hwf scene' e' h' target' g' ht' c'

/-- Claim C1: once `access_grid` has stored a value other than the `-2`
sentinel for a (scene, target, quantized cell) in a well-formed grid
cache, (a) every later call from any pose quantizing to the same cell
returns exactly the stored value, leaves the grid table unchanged and
issues no shortest-path query, and (b) no `access_grid` call whatsoever
(any scene, target or pose) ever rewrites that filled cell, and every call
preserves well-formedness of the cache (given that `math.sqrt` is
nonnegative on nonnegative inputs). -/
theorem C1_access_grid_memoized
    (sqrt : ℚ → ℚ) (hsqrt : ∀ q : ℚ, 0 ≤ q → 0 ≤ sqrt q)
    (gridSize rotStep : ℚ) (gt : Env.GridTable) (hwf : Env.WF gt)
    (scene target : String) (e : Env.SceneEntry) (g : (ℤ × ℤ) → ℚ)
    (c : ℤ × ℤ)
    (hs : gt.grids scene = some e) (ht : e.targets target = some g)
    (hfill : g c ≠ -2) :
    (∀ (pose : AgentPose) (corners : List Point),
        Env.poseCell gridSize rotStep e pose = c →
        Env.access_grid sqrt gridSize rotStep gt scene target pose corners
          = .ok (g c, gt, false)) ∧
    (∀ (scene2 target2 : String) (pose2 : AgentPose) (corners2 : List Point)
        (v : ℚ) (gt2 : Env.GridTable) (q : Bool),
        Env.access_grid sqrt gridSize rotStep gt scene2 target2 pose2 corners2
          = .ok (v, gt2, q) →
        Env.cellValue gt2 scene target c = some (g c) ∧ Env.WF gt2) :=
  ⟨fun pose corners hc =>
    Env.access_grid_readback sqrt gridSize rotStep gt hwf scene target e g c
      hs ht hfill pose corners hc,
   fun scene2 target2 pose2 corners2 v gt2 q hcall =>
    Env.access_grid_preserves sqrt hsqrt gridSize rotStep gt hwf scene target
      e g c hs ht hfill scene2 target2 pose2 corners2 v gt2 q hcall⟩

/-- Witness for C1: a concrete grid table whose cell `(2, 2)` for target
`Vase` already holds distance 3; the agent pose at the origin quantizes to
that cell; the call returns 3 without a query, leaves the table as it was,
and the filled cell and well-formedness survive the call. -/
theorem C1_access_grid_memoized_witness :
    Env.access_grid (fun q => q) gridSizeDefault rotateStepDefault C1W.gtW
        C1W.sceneW C1W.targetW C1W.poseW []
      = .ok (C1W.gW C1W.cellW, C1W.gtW, false) ∧
    Env.cellValue C1W.gtW C1W.sceneW C1W.targetW C1W.cellW
      = some (C1W.gW C1W.cellW) ∧
    Env.WF C1W.gtW := by
  have hwfW : Env.WF C1W.gtW := by
    intro scene e hse target g htg c
    unfold C1W.gtW at hse
    dsimp only at hse
    by_cases hs1 : scene = C1W.sceneW
    · rw [if_pos hs1] at hse
      cases hse
      unfold C1W.entryW at htg
      dsimp only at htg
      by_cases ht1 : target = C1W.targetW
      · rw [if_pos ht1] at htg
        cases htg
        unfold C1W.gW
        by_cases hc1 : c = C1W.cellW
        · rw [if_pos hc1]
          right
          norm_num
        · rw [if_neg hc1]
          left
          rfl
      · rw [if_neg ht1] at htg
        cases htg
    · rw [if_neg hs1] at hse
      cases hse
  have hc : Env.poseCell gridSizeDefault rotateStepDefault C1W.entryW C1W.poseW
      = C1W.cellW := by
    unfold Env.poseCell Env.quantized_agent_state C1W.entryW C1W.poseW C1W.cellW
    norm_num [clipZ, gridSizeDefault, rotateStepDefault]
  have h := C1_access_grid_memoized (fun q => q) (fun q hq => hq)
    gridSizeDefault rotateStepDefault C1W.gtW hwfW C1W.sceneW C1W.targetW
    C1W.entryW C1W.gW C1W.cellW rfl rfl (by decide)
  have h1 := h.1 C1W.poseW [] hc
  have h2 := h.2 C1W.sceneW C1W.targetW C1W.poseW [] (C1W.gW C1W.cellW)
    C1W.gtW false h1
  exact ⟨h1, h2.1, h2.2⟩

/-- Claim C5 counterexample: with `mirror = True` and a 2-dimensional
depth frame (the shape the observation path itself expects for depth,
robothor_tasks.py line 393), `render("depth")` raises `IndexError` from
`frame[:, ::-1, :]` instead of returning the horizontal flip of the
non-mirrored frame. -/
theorem C5_depth_render_mirror_counterexample :
    renderON true depthMode ⟨.a3 [[[1]]], .a2 [[1, 2], [3, 4]]⟩
      = .error .indexError ∧
    renderON false depthMode ⟨.a3 [[[1]]], .a2 [[1, 2], [3, 4]]⟩
      = .ok (.a2 [[1, 2], [3, 4]]) := ⟨rfl, rfl⟩

/-- Claim C5 (amended): with `mirror=True` the rotation actions are
swapped exactly (`ROTATE_LEFT` issues what a `mirror=False` task issues
for `ROTATE_RIGHT`, and conversely; all other actions pass through); every
ndarray observation under an image key (`rgb`/`depth` in the name) with 2
or 3 dimensions is reversed along axis 1, which is the exact horizontal
flip (entry `j` of each row becomes entry `width - 1 - j`); the rgb render
frame and any 3-dim depth frame are equally flipped; but a 2-dim depth
frame under `mirror=True` raises `IndexError` instead. -/
theorem C5_mirroring_amended :
    (mirrorActionStr true ROTATE_LEFT = ROTATE_RIGHT) ∧
    (mirrorActionStr true ROTATE_RIGHT = ROTATE_LEFT) ∧
    (∀ a : String, a ≠ ROTATE_LEFT → a ≠ ROTATE_RIGHT →
        mirrorActionStr true a = a) ∧
    (mirrorActionStr true ROTATE_LEFT = mirrorActionStr false ROTATE_RIGHT) ∧
    (mirrorActionStr true ROTATE_RIGHT = mirrorActionStr false ROTATE_LEFT) ∧
    (∀ obs : List (String × PyVal), get_observations false obs = obs) ∧
    (∀ (k : String) (v : PyVal), imageKey k = false → mirrorVal k v = v) ∧
    (∀ (k : String) (rows : List (List (List ℚ))), imageKey k = true →
        mirrorVal k (.arr (.a3 rows)) = .arr (.a3 (rows.map List.reverse))) ∧
    (∀ (k : String) (rows : List (List ℚ)), imageKey k = true →
        mirrorVal k (.arr (.a2 rows)) = .arr (.a2 (rows.map List.reverse))) ∧
    (∀ (obs : List (String × PyVal)) (k : String) (v : PyVal),
        (k, v) ∈ obs → (k, mirrorVal k v) ∈ get_observations true obs) ∧
    (∀ (r : List ℚ) (j : ℕ), j < r.length →
        r.reverse[j]? = r[r.length - 1 - j]?) ∧
    (∀ (fr : Frames) (rows : List (List (List ℚ))), fr.frame = .a3 rows →
        renderON true rgbMode fr = .ok (.a3 (rows.map List.reverse)) ∧
        renderON false rgbMode fr = .ok (.a3 rows)) ∧
    (∀ (fr : Frames) (rows : List (List (List ℚ))), fr.depth = .a3 rows →
        renderON true depthMode fr = .ok (.a3 (rows.map List.reverse))) ∧
    (∀ (fr : Frames) (rows : List (List ℚ)), fr.depth = .a2 rows →
        renderON true depthMode fr = .error .indexError) := by
  refine ⟨rfl, rfl, ?_, rfl, rfl, ?_, ?_, ?_, ?_, ?_, ?_, ?_, ?_, ?_⟩
  · intro a h1 h2
    unfold mirrorActionStr
    rw [if_pos rfl, if_neg h2, if_neg h1]
  · intro obs
    rfl
  · intro k v h
    unfold mirrorVal
    rw [h]
    simp
  · intro k rows h
    unfold mirrorVal
    rw [h]
    rfl
  · intro k rows h
    unfold mirrorVal
    rw [h]
    rfl
  · intro obs k v h
    unfold get_observations
    rw [if_pos rfl]
    exact List.mem_map.mpr ⟨(k, v), h, rfl⟩
  · intro r j hj
    rw [List.getElem?_eq_getElem (by simpa using hj),
        List.getElem?_eq_getElem (by omega)]
    congr 1
    exact List.getElem_reverse ..
  · intro fr rows h
    unfold renderON
    rw [if_pos rfl, if_pos rfl, h]
    exact ⟨rfl, rfl⟩
  · intro fr rows h
    unfold renderON
    rw [if_neg (by decide), if_pos rfl, if_pos rfl, h]
    rfl
  · intro fr rows h
    unfold renderON
    rw [if_neg (by decide), if_pos rfl, if_pos rfl, h]
    rfl

/-- Witness for the amended C5 at concrete actions, observation dict and
frames. -/
theorem C5_mirroring_amended_witness :
    (mirrorActionStr true MOVE_AHEAD = MOVE_AHEAD) ∧
    (mirrorVal MOVE_AHEAD (.nonArray 0) = .nonArray 0) ∧
    (mirrorVal rgbStr (.arr (.a3 [[[1], [2]]])) = .arr (.a3 [[[2], [1]]])) ∧
    (mirrorVal depthStr (.arr (.a2 [[1, 2]])) = .arr (.a2 [[2, 1]])) ∧
    ((rgbStr, mirrorVal rgbStr (.arr (.a2 [[1, 2]])))
      ∈ get_observations true [(rgbStr, .arr (.a2 [[1, 2]]))]) ∧
    (([(1 : ℚ), 2, 3].reverse[0]? = [(1 : ℚ), 2, 3][2]?) ∧
      [(1 : ℚ), 2, 3].reverse[0]? = some 3) ∧
    (renderON true rgbMode ⟨.a3 [[[1], [2]]], .a2 [[1, 2]]⟩
      = .ok (.a3 [[[2], [1]]])) ∧
    (renderON true depthMode ⟨.a3 [[[1], [2]]], .a2 [[1, 2]]⟩
      = .error .indexError) := by
  have h := C5_mirroring_amended
  refine ⟨h.2.2.1 MOVE_AHEAD (by decide) (by decide),
    h.2.2.2.2.2.2.1 MOVE_AHEAD (.nonArray 0) ?_,
    h.2.2.2.2.2.2.2.1 rgbStr [[[1], [2]]] ?_,
    h.2.2.2.2.2.2.2.2.1 depthStr [[1, 2]] ?_,
    h.2.2.2.2.2.2.2.2.2.1 [(rgbStr, .arr (.a2 [[1, 2]]))] rgbStr
      (.arr (.a2 [[1, 2]])) (List.mem_singleton.mpr rfl),
    ⟨h.2.2.2.2.2.2.2.2.2.2.1 [(1 : ℚ), 2, 3] 0 (by decide), rfl⟩,
    (h.2.2.2.2.2.2.2.2.2.2.2.1 ⟨.a3 [[[1], [2]]], .a2 [[1, 2]]⟩
      [[[1], [2]]] rfl).1,
    h.2.2.2.2.2.2.2.2.2.2.2.2.2 ⟨.a3 [[[1], [2]]], .a2 [[1, 2]]⟩
      [[1, 2]] rfl⟩
  · decide
  · decide
  · decide

/-- Claim C3: for every completed episode of `PointNavTask`, of the
robothor `ObjectNavTask`, and of the exploration-shaped ObjectNav variant,
whenever `metrics()` returns a populated mapping on the first terminal
call, its `total_reward` equals the sum of all per-step `judge()` outputs
of the episode. -/
theorem C3_total_reward_conservation :
    (∀ (cfg : RewardConfig) (inputs : List (String × PointNav.StepInput))
        (maxSteps : ℕ) (d0 : ℚ) (cd : Option ℚ) (sqrt : ℚ → ℚ) (gs : ℚ)
        (corners : List Point) (m : MetricsData),
        (PointNav.metrics true cd sqrt gs corners
            (PointNav.run cfg inputs (PointNav.init maxSteps d0)).2).1
          = .ok (.data m) →
        m.total_reward
          = (PointNav.run cfg inputs (PointNav.init maxSteps d0)).1.sum) ∧
    (∀ (cfg : RewardConfig) (inputs : List (String × ObjectNav.StepInput))
        (maxSteps : ℕ) (mirror : Bool) (d0 : ℚ) (p0 : AgentPose)
        (cd : Option ℚ) (sqrt : ℚ → ℚ) (gs : ℚ) (corners : List Point)
        (m : MetricsData),
        (ObjectNav.metrics (some cd) sqrt gs corners
            (ObjectNav.run cfg inputs (ObjectNav.init maxSteps mirror d0 p0)).2).1
          = .ok (.data m) →
        m.total_reward
          = (ObjectNav.run cfg inputs (ObjectNav.init maxSteps mirror d0 p0)).1.sum) ∧
    (∀ (cfg : ObjectNavExp.RewardConfig)
        (inputs : List (String × ObjectNavExp.StepInput)) (maxSteps : ℕ)
        (d0 : ℚ) (cell0 : ℤ × ℤ × ℤ) (m : MetricsData),
        ObjectNavExp.metrics
            (ObjectNavExp.run cfg inputs (ObjectNavExp.init maxSteps d0 cell0)).2
          = .data m →
        m.total_reward
          = (ObjectNavExp.run cfg inputs (ObjectNavExp.init maxSteps d0 cell0)).1.sum) := by
  refine ⟨?_, ?_, ?_⟩
  · intro cfg inputs maxSteps d0 cd sqrt gs corners m hm
    have hrew := PointNav.run_rewards cfg inputs (PointNav.init maxSteps d0)
    unfold PointNav.metrics at hm
    split at hm
    · cases hm
    · dsimp only at hm
      split at hm
      · cases hm
      · split at hm
        · split at hm
          · cases hm
          · cases hm
            dsimp only
            rw [hrew]
            simp [PointNav.init]
        · cases hm
  · intro cfg inputs maxSteps mirror d0 p0 cd sqrt gs corners m hm
    have hrew := ObjectNav.run_rewards_append cfg inputs (ObjectNav.init maxSteps mirror d0 p0)
    unfold ObjectNav.metrics at hm
    dsimp only at hm
    split at hm
    · cases hm
    · cases hm
      dsimp only
      rw [hrew]
      simp [ObjectNav.init]
  · intro cfg inputs maxSteps d0 cell0 m hm
    have hrew := ObjectNavExp.run_rewards_base cfg inputs (ObjectNavExp.init maxSteps d0 cell0)
    unfold ObjectNavExp.metrics at hm
    split at hm
    · cases hm
    · cases hm
      dsimp only
      rw [hrew]
      simp [ObjectNavExp.init]

/-- Witness for C3: concrete one-step episodes, ending with `END` on a
visible/in-range goal, for each of the three task variants. -/
theorem C3_total_reward_conservation_witness :
    (MetricsData.total_reward ⟨some true, 1, 10, some 1, 1⟩
      = (PointNav.run ⟨0, 10, 0, 0⟩ [(END, ⟨⟨0, 0, 0⟩, true, some true, 0⟩)]
          (PointNav.init 10 1)).1.sum) ∧
    (MetricsData.total_reward ⟨some true, 1, 10, some 2, 1⟩
      = (ObjectNav.run ⟨0, 10, 0, 0⟩
          [(END, ⟨⟨0, 0, 0⟩, ⟨0, 0, 0, 0, 0, 0, 0⟩, true, true, 0⟩)]
          (ObjectNav.init 10 false 1 ⟨0, 0, 0, 0, 0, 0, 0⟩)).1.sum) ∧
    (MetricsData.total_reward ⟨some true, 1, 10, none, 0⟩
      = (ObjectNavExp.run ⟨0, 10, 0, 0, 0, 0⟩ [(END, ⟨true, true, 0, (0, 0, 0)⟩)]
          (ObjectNavExp.init 10 1 (0, 0, 0))).1.sum) := by
  have h := C3_total_reward_conservation
  refine ⟨h.1 ⟨0, 10, 0, 0⟩ [(END, ⟨⟨0, 0, 0⟩, true, some true, 0⟩)] 10 1
      (some 1) (fun _ => 1) 1 [] ⟨some true, 1, 10, some 1, 1⟩ ?_,
    h.2.1 ⟨0, 10, 0, 0⟩ [(END, ⟨⟨0, 0, 0⟩, ⟨0, 0, 0, 0, 0, 0, 0⟩, true, true, 0⟩)]
      10 false 1 ⟨0, 0, 0, 0, 0, 0, 0⟩ (some 2) (fun _ => 1) 1 []
      ⟨some true, 1, 10, some 2, 1⟩ ?_,
    h.2.2 ⟨0, 10, 0, 0, 0, 0⟩ [(END, ⟨true, true, 0, (0, 0, 0)⟩)] 10 1 (0, 0, 0)
      ⟨some true, 1, 10, none, 0⟩ ?_⟩
  · simp [PointNav.run, PointNav.step, PointNav.stepAct, PointNav.judge,
      PointNav.shaping, PointNav.init, PointNav.metrics, PointNav.is_done,
      PointNav.spl, lastTwoDiffer, END]
  · simp [ObjectNav.run, ObjectNav.step, ObjectNav.stepAct, ObjectNav.judge,
      ObjectNav.shaping, ObjectNav.init, ObjectNav.metrics, ObjectNav.is_done,
      ObjectNav.spl, mirrorActionStr, lastTwoDiffer, END, ROTATE_LEFT, ROTATE_RIGHT]
  · simp [ObjectNavExp.run, ObjectNavExp.step, ObjectNavExp.stepAct,
      ObjectNavExp.judge, ObjectNavExp.shaping, ObjectNavExp.init,
      ObjectNavExp.metrics, ObjectNavExp.is_done, END]

/-- Claim C9 counterexample: two successive `MOVE_AHEAD` steps that leave
the agent at the same position `(1, 0, 1)`.  The claim says the position
is appended to `path` only if it differs from the previously recorded one;
the code appends unconditionally, so `path` ends as `[p, p]` (while the
move count correctly stays 0). -/
theorem C9_duplicate_position_still_appended :
    (PointNav.run ⟨0, 0, 0, 0⟩
        [(MOVE_AHEAD, ⟨⟨1, 0, 1⟩, true, none, 0⟩),
         (MOVE_AHEAD, ⟨⟨1, 0, 1⟩, true, none, 0⟩)]
        (PointNav.init 10 3)).2.path = [⟨1, 0, 1⟩, ⟨1, 0, 1⟩] ∧
    (PointNav.run ⟨0, 0, 0, 0⟩
        [(MOVE_AHEAD, ⟨⟨1, 0, 1⟩, true, none, 0⟩),
         (MOVE_AHEAD, ⟨⟨1, 0, 1⟩, true, none, 0⟩)]
        (PointNav.init 10 3)).2.num_moves_made = 0 := by
  constructor <;> rfl

/-- Claim C9 (amended): for every non-`END` action, `PointNavTask._step`
always appends the new agent position to `path`; `num_moves_made` is
incremented exactly when the newly appended position differs from the
previously recorded one (duplicate consecutive positions do not count as a
move, and the first recorded position never counts). -/
theorem C9_path_append_and_move_count (cfg : RewardConfig) (a : String)
    (i : PointNav.StepInput) (st : PointNav.State) (ha : a ≠ END) :
    (PointNav.stepAct cfg a i st).2.path = st.path ++ [i.pose] ∧
    (st.path = [] →
      (PointNav.stepAct cfg a i st).2.num_moves_made = st.num_moves_made) ∧
    (∀ p, st.path.getLast? = some p → i.pose = p →
      (PointNav.stepAct cfg a i st).2.num_moves_made = st.num_moves_made) ∧
    (∀ p, st.path.getLast? = some p → i.pose ≠ p →
      (PointNav.stepAct cfg a i st).2.num_moves_made = st.num_moves_made + 1) := by
  unfold PointNav.stepAct
  simp only [if_neg ha]
  refine ⟨?_, ?_, ?_, ?_⟩
  · dsimp only
    split
    · rw [PointNav.judge_path]
    · rw [PointNav.judge_path]
  · intro hnil
    rw [hnil]
    simp only [List.nil_append]
    rw [if_neg]
    · exact PointNav.judge_moves _ _ _
    · simp [lastTwoDiffer]
  · intro p hlast hp
    have hrev : st.path.reverse.head? = some p := by
      rw [List.head?_reverse, hlast]
    obtain ⟨t, ht⟩ : ∃ t, st.path.reverse = p :: t := by
      cases hc : st.path.reverse with
      | nil => rw [hc] at hrev; cases hrev
      | cons b t =>
          rw [hc] at hrev
          simp at hrev
          exact ⟨t, by rw [hrev]⟩
    rw [if_neg]
    · exact PointNav.judge_moves _ _ _
    · simp only [lastTwoDiffer, List.reverse_append, List.reverse_cons,
        List.reverse_nil, List.nil_append, List.cons_append, ht]
      simp [hp]
  · intro p hlast hp
    have hrev : st.path.reverse.head? = some p := by
      rw [List.head?_reverse, hlast]
    obtain ⟨t, ht⟩ : ∃ t, st.path.reverse = p :: t := by
      cases hc : st.path.reverse with
      | nil => rw [hc] at hrev; cases hrev
      | cons b t =>
          rw [hc] at hrev
          simp at hrev
          exact ⟨t, by rw [hrev]⟩
    rw [if_pos]
    · have h := PointNav.judge_moves cfg i.dist
        { st with last_action_success := some i.actionSuccess,
                  path := st.path ++ [i.pose], num_moves_made := st.num_moves_made + 1 }
      exact h
    · have hlen : 1 < (st.path ++ [i.pose]).length := by
        have : st.path ≠ [] := by
          intro hn
          rw [hn] at ht
          simp at ht
        have : 1 ≤ st.path.length := by
          cases hc : st.path with
          | nil => exact absurd hc this
          | cons b t => simp
        simp only [List.length_append, List.length_cons, List.length_nil]
        omega
      have hdif : lastTwoDiffer (st.path ++ [i.pose]) = true := by
        simp only [lastTwoDiffer, List.reverse_append, List.reverse_cons,
          List.reverse_nil, List.nil_append, List.cons_append, ht]
        simp [hp]
      rw [hdif, Bool.and_true]
      exact decide_eq_true hlen

/-- Witness for the amended C9: a first `MOVE_AHEAD` step appends the
position without counting a move, a duplicate second step appends again
without counting, and a differing third step appends and counts. -/
theorem C9_path_append_and_move_count_witness :
    (PointNav.stepAct ⟨0, 0, 0, 0⟩ MOVE_AHEAD ⟨⟨1, 0, 1⟩, true, none, 0⟩
        (PointNav.init 10 3)).2.path = [⟨1, 0, 1⟩] ∧
    (PointNav.stepAct ⟨0, 0, 0, 0⟩ MOVE_AHEAD ⟨⟨1, 0, 1⟩, true, none, 0⟩
        (PointNav.init 10 3)).2.num_moves_made = 0 ∧
    (PointNav.stepAct ⟨0, 0, 0, 0⟩ MOVE_AHEAD ⟨⟨1, 0, 1⟩, true, none, 0⟩
        { PointNav.init 10 3 with path := [⟨1, 0, 1⟩] }).2.num_moves_made = 0 ∧
    (PointNav.stepAct ⟨0, 0, 0, 0⟩ MOVE_AHEAD ⟨⟨2, 0, 1⟩, true, none, 0⟩
        { PointNav.init 10 3 with path := [⟨1, 0, 1⟩] }).2.num_moves_made = 1 := by
  have h1 := C9_path_append_and_move_count ⟨0, 0, 0, 0⟩ MOVE_AHEAD
    ⟨⟨1, 0, 1⟩, true, none, 0⟩ (PointNav.init 10 3) (by decide)
  have h2 := C9_path_append_and_move_count ⟨0, 0, 0, 0⟩ MOVE_AHEAD
    ⟨⟨1, 0, 1⟩, true, none, 0⟩
    { PointNav.init 10 3 with path := [⟨1, 0, 1⟩] } (by decide)
  have h3 := C9_path_append_and_move_count ⟨0, 0, 0, 0⟩ MOVE_AHEAD
    ⟨⟨2, 0, 1⟩, true, none, 0⟩
    { PointNav.init 10 3 with path := [⟨1, 0, 1⟩] } (by decide)
  exact ⟨h1.1, h1.2.1 rfl, h2.2.2.1 ⟨1, 0, 1⟩ rfl rfl,
         h3.2.2.2 ⟨1, 0, 1⟩ rfl (by decide)⟩

/-- Claim C10: `PointNavTask.metrics` on a task without a distance cache,
called in a terminal state with a non-`None` success flag, raises
`NotImplementedError` after clearing the accumulated reward list, so a
no-cache PointNav episode can never return a populated metrics mapping. -/
theorem C10_pointnav_metrics_no_cache (cd : Option ℚ) (sqrt : ℚ → ℚ)
    (gs : ℚ) (corners : List Point) (st : PointNav.State)
    (hdone : PointNav.is_done st = true) (hs : st.success ≠ none) :
    PointNav.metrics false cd sqrt gs corners st
      = (.error .notImplementedError, { st with rewards := [] }) := by
  unfold PointNav.metrics
  simp [hdone, hs]

/-- Witness for C10 at a concrete terminal no-cache state with pending
rewards. -/
theorem C10_pointnav_metrics_no_cache_witness :
    PointNav.metrics false none (fun q => q) gridSizeDefault []
        ⟨true, some false, some false, 3, 3, [5, -1], [], 0, 4, 10⟩
      = (.error .notImplementedError,
         ⟨true, some false, some false, 3, 3, [], [], 0, 4, 10⟩) :=
  C10_pointnav_metrics_no_cache none (fun q => q) gridSizeDefault []
    ⟨true, some false, some false, 3, 3, [5, -1], [], 0, 4, 10⟩ rfl (by decide)
